import Mathlib

/-!
Shallow embedding of the notification polling engine of the
ASUClassTrackerBackend repository (services/notificationService.js), together
with proofs of the spec's claims about it.

Conventions of the embedding:
* MongoDB ObjectIds are modelled as `Nat`; `Date` values as `Nat` timestamps.
* `.populate`d references may be `null` in JavaScript (dangling reference), so
  the populated `user_id` / `class_id` of a notification document are
  `Option Nat`.
* External effects (the Python lookup subprocess, `sendMail`) are inputs to the
  embedded functions: the caller supplies the outcome the external world
  produced, and the function computes what the code does with it.
* `Math.random() * 1000` produces a real number in `[0, 1000)`; jitter is
  modelled as a rational parameter constrained by hypotheses `0 ≤ j`, `j < 1000`.
-/

namespace ASUClassTracker

/-- Seat status enum of the notification schema (`enum: ['Open', 'Closed']`). -/
inductive SeatStatus where
  | Open
  | Closed
deriving DecidableEq, Repr

/-- Parsed output of the lookup script (`classData` in `executeClassScript`):
only the fields the engine's logic reads are carried; descriptive fields are
used solely for console printing and email composition. -/
structure ClassStatus where
  number : String
  course : String
  title : String
  seatStatus : SeatStatus
deriving DecidableEq, Repr

/-- A document of the `Notification` mongoose model.  `user_id` and `class_id`
are the populated references (required ObjectIds in the schema, but `populate`
yields `null` for a dangling reference, hence `Option`). -/
structure NotificationRecord where
  id : Nat
  user_id : Option Nat
  class_id : Option Nat
  class_number : String
  last_status : SeatStatus
  last_checked : Nat
  notification_sent : Option Nat
  notification_count : Nat
  is_active : Bool
deriving DecidableEq, Repr

/-- Nodemailer transporter configuration (`this.emailTransporter` is `null`
when `EMAIL_USER`/`EMAIL_PASS` are absent, hence `Option EmailTransporter`
wherever the code reads the field). -/
structure EmailTransporter where
  host : String
  port : Nat
deriving DecidableEq, Repr

/-- `sendNotificationEmail(notification, classStatus)`.
The outcome of the external `transporter.sendMail` call is the input
`sendMailResult`.  Returns `Except.ok sent`, where `sent` records whether a
mail was actually handed to the transporter: the function returns early when
no transporter is configured, and its `try`/`catch` swallows any `sendMail`
error, so it never propagates an error (never returns `Except.error`). -/
def sendNotificationEmail (transporter : Option EmailTransporter)
    (rec : NotificationRecord) (cs : ClassStatus)
    (sendMailResult : Except String Unit) : Except String Bool :=
  match transporter with
  | none => Except.ok false
  | some _ =>
    match sendMailResult with
    | Except.ok _ => Except.ok true
    | Except.error _ => Except.ok false

/-- The value `processNotification` returns on the happy path:
`{ classNumber, status, notificationSent }`. -/
structure ProcessOutcome where
  classNumber : String
  status : SeatStatus
  notificationSent : Bool
deriving DecidableEq, Repr

/-- `processNotification(notification)`.  `lookup` is the value
`getClassStatus` resolved with (`none` = the script call resolved `null`).
Returns the net new state of the notification document together with the
function's return value (`none` models returning `null`).  Mirrors the source:
1. guard on populated `user_id`/`class_id`;
2. guard on a `null` class status (no database write at all);
3. `findByIdAndUpdate` of `last_checked` and `last_status` with the fresh value;
4. if the stored status was `Closed` and the fresh one is `Open`: await
   `sendNotificationEmail` (which never throws), then `findByIdAndUpdate` of
   `notification_sent` and `notification_count + 1`. -/
def processNotification (rec : NotificationRecord) (lookup : Option ClassStatus)
    (now : Nat) (transporter : Option EmailTransporter)
    (sendMailResult : Except String Unit) :
    NotificationRecord × Option ProcessOutcome :=
  if rec.user_id = none ∨ rec.class_id = none then
    (rec, none)
  else
    match lookup with
    | none => (rec, none)
    | some cs =>
      let rec1 : NotificationRecord :=
        { rec with last_checked := now, last_status := cs.seatStatus }
      if rec.last_status = SeatStatus.Closed ∧ cs.seatStatus = SeatStatus.Open then
        let _ := sendNotificationEmail transporter rec cs sendMailResult
        ({ rec1 with
            notification_sent := some now,
            notification_count := rec.notification_count + 1 },
          some { classNumber := rec.class_number,
                 status := cs.seatStatus,
                 notificationSent := true })
      else
        (rec1,
          some { classNumber := rec.class_number,
                 status := cs.seatStatus,
                 notificationSent := false })

/-- Whether a return value of `processNotification` reports a dispatched
notification (`result && result.notificationSent` in `monitorClasses`). -/
def sentFlag : Option ProcessOutcome → Bool
  | some o => o.notificationSent
  | none => false

/-! ### The external script call (`executeClassScript`) -/

/-- Outcome of one attempt at the external lookup, as observed by
`executeClassScript`:
* `ok data` — `execAsync` succeeded, `stdout` parsed, no `error` field;
* `errorField msg` — `execAsync` succeeded, `stdout` parsed, but the parsed
  JSON carries an `error` field (class not found);
* `parseFailure` — `execAsync` succeeded but `stdout` was not valid JSON
  (the code throws after the cleanup block, landing in its own `catch`);
* `procFailure` — `execAsync` rejected (non-zero exit / crash);
* `timeout` — `execAsync` rejected after the 45 s timeout killed the child. -/
inductive AttemptOutcome where
  | ok (data : ClassStatus)
  | errorField (msg : String)
  | parseFailure
  | procFailure
  | timeout
deriving DecidableEq, Repr

/-- How one run of `executeClassScript` disposes of its queue entry:
resolve the promise (with the parsed data or `null`), or push a fresh entry
with `retries + 1` back onto the queue after the given backoff delay (ms). -/
inductive ScriptDisposal where
  | resolved (data : Option ClassStatus)
  | requeued (newRetries : Nat) (delay : ℚ)
deriving DecidableEq, Repr

/-- `this.maxRetries`. -/
def maxRetries : Nat := 3

/-- The `catch` block of `executeClassScript`: while `retries < maxRetries`
the entry is requeued after `Math.pow(2, retries) * 3000 + Math.random() * 1000`
milliseconds (`jitter` stands for the `Math.random() * 1000` term); once
retries are exhausted the promise resolves `null`. -/
def catchRetry (retries : Nat) (jitter : ℚ) : ScriptDisposal :=
  if retries < maxRetries then
    ScriptDisposal.requeued (retries + 1) (2 ^ retries * 3000 + jitter)
  else
    ScriptDisposal.resolved none

/-- Whether `execAsync` itself returned (so control reached the statements
after it inside the `try` block).  The temp-directory cleanup block sits there,
after `execAsync` and before `JSON.parse`. -/
def execCompleted : AttemptOutcome → Bool
  | AttemptOutcome.ok _ => true
  | AttemptOutcome.errorField _ => true
  | AttemptOutcome.parseFailure => true
  | AttemptOutcome.procFailure => false
  | AttemptOutcome.timeout => false

/-- Failure kinds that reach the `catch` block and are therefore retryable. -/
def retryable : AttemptOutcome → Bool
  | AttemptOutcome.parseFailure => true
  | AttemptOutcome.procFailure => true
  | AttemptOutcome.timeout => true
  | AttemptOutcome.ok _ => false
  | AttemptOutcome.errorField _ => false

/-- `/tmp/playwright_process_${Date.now()}_${token}` — the scratch directory
handed to the child process through `TMPDIR`/`HOME`/`XDG_*`. -/
def tempDirName (timestamp : Nat) (token : String) : String :=
  "/tmp/playwright_process_" ++ toString timestamp ++ "_" ++ token

/-- `executeClassScript(classNumber, resolve, retries)` reduced to its
decision structure: given the attempt outcome and the entry's retry count,
returns how the entry is disposed of, paired with whether the temp-directory
cleanup block (`rm -rf tempDir`) was executed on that path.  The cleanup block
runs inside `try` right after `execAsync`, so it runs exactly when `execAsync`
returned; the `catch` path (process failure / timeout) never reaches it. -/
def executeClassScript (outcome : AttemptOutcome) (retries : Nat) (jitter : ℚ) :
    ScriptDisposal × Bool :=
  match outcome with
  | AttemptOutcome.ok data => (ScriptDisposal.resolved (some data), true)
  | AttemptOutcome.errorField _ => (ScriptDisposal.resolved none, true)
  | AttemptOutcome.parseFailure => (catchRetry retries jitter, true)
  | AttemptOutcome.procFailure => (catchRetry retries jitter, false)
  | AttemptOutcome.timeout => (catchRetry retries jitter, false)

/-! ### The rate-limited script queue (`processScriptQueue`) -/

/-- An entry of `this.scriptCallQueue` (the `resolve` callback is not
representable as data; the other fields are carried verbatim). -/
structure QueueEntry where
  classNumber : String
  retries : Nat
  timestamp : Nat
deriving DecidableEq, Repr

/-- `this.maxConcurrentScripts` (kept at 1 for browser stability).
Modelled as `Int` because `currentScriptCount` is a JavaScript number. -/
def maxConcurrentScripts : Int := 1

/-- The queue-related mutable state of the service:
`this.scriptCallQueue` and `this.currentScriptCount`. -/
structure ScriptQueueState where
  scriptCallQueue : List QueueEntry
  currentScriptCount : Int
deriving DecidableEq, Repr

/-- State at service start: empty queue, zero scripts in flight. -/
def initialQueueState : ScriptQueueState :=
  { scriptCallQueue := [], currentScriptCount := 0 }

/-- Events that mutate the queue state.  `serviceTick` is one iteration of the
`while (this.isRunning)` loop of `processScriptQueue`; since that loop is the
only code that dispatches (and only it increments the count), the guard check
and the dispatch are one atomic step here — the `minScriptInterval` sleep
between them only delays the dispatch and admits no other increment.
`scriptFinished` is the `finally` block of `executeClassScript`;
`enqueue` is a `scriptCallQueue.push` from `getClassStatus` or from the retry
`setTimeout`. -/
inductive QueueEvent where
  | serviceTick
  | scriptFinished
  | enqueue (e : QueueEntry)
deriving DecidableEq, Repr

/-- One step of the queue state machine.  A dispatch happens only when an
entry is waiting and `currentScriptCount < maxConcurrentScripts`; it shifts
the first entry (FIFO) and increments the count before launching the script. -/
def queueStep (s : ScriptQueueState) (ev : QueueEvent) : ScriptQueueState :=
  match ev with
  | QueueEvent.enqueue e =>
    { s with scriptCallQueue := s.scriptCallQueue ++ [e] }
  | QueueEvent.serviceTick =>
    if 0 < s.scriptCallQueue.length ∧ s.currentScriptCount < maxConcurrentScripts then
      { scriptCallQueue := s.scriptCallQueue.tail,
        currentScriptCount := s.currentScriptCount + 1 }
    else s
  | QueueEvent.scriptFinished =>
    { s with currentScriptCount := s.currentScriptCount - 1 }

/-! ### Store-level operations (tracking creation / deactivation / backfill) -/

/-- A `Class` document, reduced to the fields the engine reads:  its id, its
(populated) owner and its class number. -/
structure ClassDoc where
  id : Nat
  user_id : Option Nat
  number : String
deriving DecidableEq, Repr

/-- The slice of the database the engine touches. -/
structure Store where
  classes : List ClassDoc
  notifs : List NotificationRecord
deriving DecidableEq, Repr

/-- The document built by `Notification.create({user_id, class_id,
class_number, last_status: 'Closed', is_active: true})`; `last_checked`
defaults to `Date.now` and `notification_count` to 0 per the schema. -/
def mkTrackingRecord (nid uid cid : Nat) (number : String) (now : Nat) :
    NotificationRecord :=
  { id := nid
    user_id := some uid
    class_id := some cid
    class_number := number
    last_status := SeatStatus.Closed
    last_checked := now
    notification_sent := none
    notification_count := 0
    is_active := true }

/-- `handleClassAdded(userId, classId)`: look the class up by id; if absent,
return with no store change; otherwise unconditionally create a fresh active
tracking record for the pair (`nid` models the ObjectId Mongo generates).
Note: unlike `initializeNotificationTracking`, no existing-record check. -/
def handleClassAdded (userId classId nid now : Nat) (s : Store) : Store :=
  match s.classes.find? (fun c => c.id == classId) with
  | none => s
  | some c =>
    { s with notifs := s.notifs ++ [mkTrackingRecord nid userId classId c.number now] }

/-- `findOneAndUpdate`: update the first document matching the predicate. -/
def updateFirst (p : α → Bool) (f : α → α) : List α → List α
  | [] => []
  | x :: xs => if p x then f x :: xs else x :: updateFirst p f xs

/-- `handleClassRemoved(userId, classId)`:
`Notification.findOneAndUpdate({user_id, class_id}, {is_active: false})`. -/
def handleClassRemoved (userId classId : Nat) (s : Store) : Store :=
  { s with notifs :=
      (updateFirst (fun n => n.user_id == some userId && n.class_id == some classId)
        (fun n => { n with is_active := false }) s.notifs) }

/-- One iteration of the `for` loop of `initializeNotificationTracking`:
skip classes with a dangling owner; `findOne({user_id, class_id})` (active or
not) and create a backfill record with `last_status: 'Closed'` only when none
exists.  The accumulator carries the notification list and the next fresh id. -/
def initStep (now : Nat) (acc : List NotificationRecord × Nat) (c : ClassDoc) :
    List NotificationRecord × Nat :=
  match c.user_id with
  | none => acc
  | some uid =>
    if acc.1.any (fun n => n.user_id == some uid && n.class_id == some c.id) then
      acc
    else
      (acc.1 ++ [mkTrackingRecord acc.2 uid c.id c.number now], acc.2 + 1)

/-- `initializeNotificationTracking()` — the startup backfill over all
classes. -/
def initializeNotificationTracking (now nextId : Nat) (s : Store) : Store :=
  { s with notifs := (s.classes.foldl (initStep now) (s.notifs, nextId)).1 }

/-- A polling-cycle update of one tracking record: the record with the given
id is replaced by the result of `processNotification` on it (the two
`findByIdAndUpdate` calls), every other record is untouched. -/
def applyPoll (s : Store) (nid : Nat) (lookup : Option ClassStatus) (now : Nat)
    (transporter : Option EmailTransporter) (sendMailResult : Except String Unit) :
    Store :=
  { s with notifs := s.notifs.map (fun n =>
      if n.id == nid then
        (processNotification n lookup now transporter sendMailResult).1
      else n) }

/-- The spec's §3 invariant: at most one active tracking record per
(userId, classId) pair — any two active records agreeing on the pair are the
same record. -/
def uniqueActivePerPair (l : List NotificationRecord) : Prop :=
  ∀ n1 ∈ l, ∀ n2 ∈ l, n1.is_active = true → n2.is_active = true →
    n1.user_id = n2.user_id → n1.class_id = n2.class_id → n1 = n2

instance (l : List NotificationRecord) : Decidable (uniqueActivePerPair l) := by
  unfold uniqueActivePerPair
  infer_instance

/-- Return value of `getNotificationStats()`. -/
structure NotificationStats where
  totalActive : Nat
  totalNotificationsSent : Nat
  lastChecked : Option Nat
deriving DecidableEq, Repr

/-- `getNotificationStats()`: the aggregation pipeline matches active records,
counts them, sums `notification_count` and takes the max `last_checked`. -/
def getNotificationStats (notifs : List NotificationRecord) : NotificationStats :=
  let active := notifs.filter (fun n => n.is_active)
  { totalActive := active.length
    totalNotificationsSent := (active.map (fun n => n.notification_count)).sum
    lastChecked := (active.map (fun n => n.last_checked)).max? }

/-! ### The batched monitoring cycle (`monitorClasses`) -/

/-- `this.batchSize`. -/
def batchSize : Nat := 5

/-- The batches one cycle of `monitorClasses` processes:
`totalBatches = Math.ceil(total / batchSize)` queries, batch `b` fetched with
`.skip(b * batchSize).limit(batchSize)` against the active records. -/
def monitorBatches (l : List α) : List (List α) :=
  (List.range ((l.length + (batchSize - 1)) / batchSize)).map
    (fun b => (l.drop (b * batchSize)).take batchSize)

/-- `Promise.allSettled` over the per-entry outcomes of a batch: every entry
yields a settled result; a rejection is recorded, never propagated, so one
entry's failure cannot abort the rest of the batch. -/
inductive Settled (ε ρ : Type) where
  | fulfilled (v : ρ)
  | rejected (e : ε)
deriving DecidableEq, Repr

/-- Settle every promise of a batch. -/
def allSettled (outcomes : List (Except ε ρ)) : List (Settled ε ρ) :=
  outcomes.map (fun r =>
    match r with
    | Except.ok v => Settled.fulfilled v
    | Except.error e => Settled.rejected e)

/-- Observable actions of one monitoring cycle, in order. -/
inductive CycleAction (α : Type) where
  | processBatch (b : List α)
  | interBatchDelay (ms : Nat)
deriving DecidableEq, Repr

/-- The `for` loop of `monitorClasses`: process one batch
(`await Promise.allSettled`), then `await this.sleep(1000)`, then the next. -/
def runBatches : List (List α) → List (CycleAction α)
  | [] => []
  | b :: rest =>
    CycleAction.processBatch b :: CycleAction.interBatchDelay 1000 :: runBatches rest

/-! ### Sequences of status observations -/

/-- A lookup result whose only meaningful field is the seat status. -/
def mkStatus (st : SeatStatus) : ClassStatus :=
  { number := "", course := "", title := "", seatStatus := st }

/-- Feed one successful status observation through `processNotification`,
accumulating the record state and the number of notifications fired. -/
def stepObservation (transporter : Option EmailTransporter)
    (sendMailResult : Except String Unit) (now : Nat)
    (acc : NotificationRecord × Nat) (st : SeatStatus) :
    NotificationRecord × Nat :=
  let out := processNotification acc.1 (some (mkStatus st)) now transporter sendMailResult
  (out.1, acc.2 + (if sentFlag out.2 then 1 else 0))

/-- Run a whole sequence of successful status observations against a tracking
record, counting notifications fired. -/
def runObservations (rec : NotificationRecord) (obs : List SeatStatus)
    (transporter : Option EmailTransporter) (sendMailResult : Except String Unit)
    (now : Nat) : NotificationRecord × Nat :=
  obs.foldl (stepObservation transporter sendMailResult now) (rec, 0)

/-- Number of Closed→Open edges in a status sequence starting from `prev`. -/
def closedOpenEdges : SeatStatus → List SeatStatus → Nat
  | _, [] => 0
  | prev, st :: rest =>
    (if prev = SeatStatus.Closed ∧ st = SeatStatus.Open then 1 else 0) +
      closedOpenEdges st rest

/-! ### Supporting lemmas -/

theorem processNotification_fst_fields (rec : NotificationRecord)
    (lookup : Option ClassStatus) (now : Nat) (t : Option EmailTransporter)
    (r : Except String Unit) :
    ((processNotification rec lookup now t r).1).user_id = rec.user_id ∧
    ((processNotification rec lookup now t r).1).class_id = rec.class_id ∧
    ((processNotification rec lookup now t r).1).is_active = rec.is_active := by
  unfold processNotification
  split
  · exact ⟨rfl, rfl, rfl⟩
  · cases lookup with
    | none => exact ⟨rfl, rfl, rfl⟩
    | some cs =>
      dsimp only
      split
      · exact ⟨rfl, rfl, rfl⟩
      · exact ⟨rfl, rfl, rfl⟩

theorem processNotification_some_eq (rec : NotificationRecord) (cs : ClassStatus)
    (now : Nat) (t : Option EmailTransporter) (r : Except String Unit)
    (hu : rec.user_id ≠ none) (hc : rec.class_id ≠ none) :
    processNotification rec (some cs) now t r =
      if rec.last_status = SeatStatus.Closed ∧ cs.seatStatus = SeatStatus.Open then
        ({ rec with
            last_checked := now
            last_status := cs.seatStatus
            notification_sent := some now
            notification_count := rec.notification_count + 1 },
          some { classNumber := rec.class_number, status := cs.seatStatus,
                 notificationSent := true })
      else
        ({ rec with last_checked := now, last_status := cs.seatStatus },
          some { classNumber := rec.class_number, status := cs.seatStatus,
                 notificationSent := false }) := by
  have hcond : ¬(rec.user_id = none ∨ rec.class_id = none) := by
    rintro (h | h)
    · exact hu h
    · exact hc h
  unfold processNotification
  rw [if_neg hcond]

theorem processNotification_fst_email_free (rec : NotificationRecord)
    (lookup : Option ClassStatus) (now : Nat) (t t' : Option EmailTransporter)
    (r r' : Except String Unit) :
    (processNotification rec lookup now t r).1 =
      (processNotification rec lookup now t' r').1 := by
  unfold processNotification
  split
  · rfl
  · cases lookup with
    | none => rfl
    | some cs => dsimp only

theorem sendNotificationEmail_isOk (t : Option EmailTransporter)
    (rec : NotificationRecord) (cs : ClassStatus) (r : Except String Unit) :
    (sendNotificationEmail t rec cs r).isOk = true := by
  unfold sendNotificationEmail
  cases t with
  | none => rfl
  | some tr => cases r <;> rfl

theorem queueStep_count_le (s : ScriptQueueState) (ev : QueueEvent)
    (h : s.currentScriptCount ≤ maxConcurrentScripts) :
    (queueStep s ev).currentScriptCount ≤ maxConcurrentScripts := by
  cases ev with
  | enqueue e => exact h
  | serviceTick =>
    simp only [queueStep]
    split
    · next h' =>
      obtain ⟨-, h2⟩ := h'
      dsimp only
      omega
    · exact h
  | scriptFinished =>
    simp only [queueStep]
    omega

theorem foldl_queueStep_count_le (evs : List QueueEvent) (s : ScriptQueueState)
    (h : s.currentScriptCount ≤ maxConcurrentScripts) :
    (evs.foldl queueStep s).currentScriptCount ≤ maxConcurrentScripts := by
  induction evs generalizing s with
  | nil => exact h
  | cons ev rest ih => exact ih _ (queueStep_count_le s ev h)

/-- C3: at every instant of any execution of the queue-servicing loop, under
any interleaving of enqueues, dispatch checks and script completions, the
number of script invocations in flight (`currentScriptCount`) never exceeds
the configured maximum of 1: a dispatch happens only when the tracked count is
below the maximum, increments it, and only a finished invocation decrements it. -/
theorem script_concurrency_never_exceeds_one (evs : List QueueEvent) :
    (evs.foldl queueStep initialQueueState).currentScriptCount ≤
      maxConcurrentScripts :=
  foldl_queueStep_count_le evs initialQueueState (by decide)

/-- C4: a retryable failure (timeout, process failure, unparseable output) is
requeued with `retryCount` incremented exactly while `retryCount < 3`, with
delay `2 ^ retryCount * 3000 + jitter` where the jitter is nonnegative and
strictly below 1000 ms, so the delay lies in
[`2 ^ retryCount * 3000`, `2 ^ retryCount * 3000 + 1000`) and is non-decreasing
from one retry to the next; once `retryCount` reaches 3 the entry resolves as
failed and is not requeued a 4th time. -/
theorem retry_backoff_policy (f : AttemptOutcome) (retries : Nat) (j j' : ℚ)
    (hf : retryable f = true) (hj0 : 0 ≤ j) (hj1 : j < 1000) :
    (retries < maxRetries →
      (executeClassScript f retries j).1 =
          ScriptDisposal.requeued (retries + 1) (2 ^ retries * 3000 + j) ∧
        2 ^ retries * 3000 ≤ 2 ^ retries * 3000 + j ∧
        2 ^ retries * 3000 + j < 2 ^ retries * 3000 + 1000 ∧
        (0 ≤ j' → j' < 1000 →
          2 ^ retries * 3000 + j ≤ 2 ^ (retries + 1) * 3000 + j')) ∧
    (maxRetries ≤ retries →
      (executeClassScript f retries j).1 = ScriptDisposal.resolved none) := by
  have hdisp : (executeClassScript f retries j).1 = catchRetry retries j := by
    cases f <;> simp_all [retryable, executeClassScript]
  constructor
  · intro hr
    rw [hdisp]
    unfold catchRetry
    rw [if_pos hr]
    refine ⟨rfl, by linarith, by linarith, ?_⟩
    intro hj0' hj1'
    have h1 : (1 : ℚ) ≤ 2 ^ retries := one_le_pow₀ (by norm_num)
    have h2 : (2 : ℚ) ^ (retries + 1) * 3000 =
        2 ^ retries * 3000 + 2 ^ retries * 3000 := by
      rw [pow_succ]
      ring
    nlinarith
  · intro hr
    rw [hdisp]
    unfold catchRetry
    rw [if_neg (by omega)]

theorem retry_backoff_policy_witness :
    (executeClassScript AttemptOutcome.timeout 0 0).1 =
        ScriptDisposal.requeued 1 3000 ∧
    (executeClassScript AttemptOutcome.timeout 3 0).1 =
        ScriptDisposal.resolved none := by
  have h := retry_backoff_policy AttemptOutcome.timeout 0 0 0 rfl le_rfl (by norm_num)
  have h3 := retry_backoff_policy AttemptOutcome.timeout 3 0 0 rfl le_rfl (by norm_num)
  refine ⟨?_, h3.2 (by decide)⟩
  have hreq := (h.1 (by decide)).1
  simpa using hreq

/-- C5: a lookup whose parsed output carries an explicit error field resolves
immediately as failed (`resolve(null)`), with no retry scheduled and the retry
count untouched, whatever its current value; and a `null` class status leaves
the tracking record entirely unmutated and makes `processNotification` return
`null`. -/
theorem notfound_no_retry_no_mutation (msg : String) (retries : Nat) (j : ℚ)
    (rec : NotificationRecord) (now : Nat) (t : Option EmailTransporter)
    (r : Except String Unit) :
    executeClassScript (AttemptOutcome.errorField msg) retries j =
      (ScriptDisposal.resolved none, true) ∧
    processNotification rec none now t r = (rec, none) := by
  constructor
  · rfl
  · unfold processNotification
    split
    · rfl
    · rfl

/-- C8 counterexample: a lookup that times out never reaches the temp-directory
cleanup block — `executeClassScript` reports the cleanup as not performed,
refuting "the directory is removed after the call regardless of outcome". -/
theorem tempdir_cleanup_counterexample :
    (executeClassScript AttemptOutcome.timeout 0 0).2 = false := rfl

/-- C8 amended: the scratch temp directory is removed exactly when the child
process invocation itself returns (success, output with an error field, or
output that later fails to parse — the cleanup block precedes `JSON.parse`);
it is NOT removed when the invocation fails with a process failure or a
timeout, because the `catch` path skips the cleanup block. -/
theorem tempdir_cleanup_on_exec_return (outcome : AttemptOutcome)
    (retries : Nat) (j : ℚ) (d : ClassStatus) (msg : String) :
    (executeClassScript outcome retries j).2 = execCompleted outcome ∧
    (executeClassScript (AttemptOutcome.ok d) retries j).2 = true ∧
    (executeClassScript (AttemptOutcome.errorField msg) retries j).2 = true ∧
    (executeClassScript AttemptOutcome.parseFailure retries j).2 = true ∧
    (executeClassScript AttemptOutcome.procFailure retries j).2 = false ∧
    (executeClassScript AttemptOutcome.timeout retries j).2 = false := by
  refine ⟨?_, rfl, rfl, rfl, rfl, rfl⟩
  cases outcome <;> rfl

theorem last_status_after (rec : NotificationRecord) (cs : ClassStatus)
    (now : Nat) (t : Option EmailTransporter) (r : Except String Unit)
    (hu : rec.user_id ≠ none) (hc : rec.class_id ≠ none) :
    ((processNotification rec (some cs) now t r).1).last_status = cs.seatStatus := by
  rw [processNotification_some_eq rec cs now t r hu hc]
  split <;> rfl

theorem last_checked_after (rec : NotificationRecord) (cs : ClassStatus)
    (now : Nat) (t : Option EmailTransporter) (r : Except String Unit)
    (hu : rec.user_id ≠ none) (hc : rec.class_id ≠ none) :
    ((processNotification rec (some cs) now t r).1).last_checked = now := by
  rw [processNotification_some_eq rec cs now t r hu hc]
  split <;> rfl

theorem sentFlag_processNotification_some (rec : NotificationRecord)
    (cs : ClassStatus) (now : Nat) (t : Option EmailTransporter)
    (r : Except String Unit) (hu : rec.user_id ≠ none) (hc : rec.class_id ≠ none) :
    sentFlag (processNotification rec (some cs) now t r).2 =
      decide (rec.last_status = SeatStatus.Closed ∧
        cs.seatStatus = SeatStatus.Open) := by
  rw [processNotification_some_eq rec cs now t r hu hc]
  split
  · next hcl => simp [sentFlag, hcl]
  · next hcl => simp [sentFlag, hcl]

theorem foldl_stepObservation_count (t : Option EmailTransporter)
    (r : Except String Unit) (now : Nat) (obs : List SeatStatus) :
    ∀ (rec : NotificationRecord) (k : Nat),
      rec.user_id ≠ none → rec.class_id ≠ none →
      (obs.foldl (stepObservation t r now) (rec, k)).2 =
        k + closedOpenEdges rec.last_status obs := by
  induction obs with
  | nil =>
    intro rec k hu hc
    simp [closedOpenEdges]
  | cons st rest ih =>
    intro rec k hu hc
    rw [List.foldl_cons]
    have hstep : stepObservation t r now (rec, k) st =
        ((processNotification rec (some (mkStatus st)) now t r).1,
          k + (if rec.last_status = SeatStatus.Closed ∧ st = SeatStatus.Open
            then 1 else 0)) := by
      unfold stepObservation
      dsimp only
      congr 1
      rw [sentFlag_processNotification_some rec (mkStatus st) now t r hu hc]
      simp [mkStatus]
    rw [hstep]
    have hfields := processNotification_fst_fields rec (some (mkStatus st)) now t r
    have hu' : ((processNotification rec (some (mkStatus st)) now t r).1).user_id ≠ none := by
      rw [hfields.1]
      exact hu
    have hc' : ((processNotification rec (some (mkStatus st)) now t r).1).class_id ≠ none := by
      rw [hfields.2.1]
      exact hc
    rw [ih _ _ hu' hc',
      last_status_after rec (mkStatus st) now t r hu hc]
    show _ = k + closedOpenEdges rec.last_status (st :: rest)
    have hcons : closedOpenEdges rec.last_status (st :: rest) =
        (if rec.last_status = SeatStatus.Closed ∧ st = SeatStatus.Open
          then 1 else 0) + closedOpenEdges st rest := rfl
    have hmk : (mkStatus st).seatStatus = st := rfl
    rw [hcons, hmk]
    omega

/-- C1: a notification email dispatch fires if and only if the stored last
status is `Closed` and the freshly looked-up seat status is `Open`; every
other pairing still updates the stored status but fires nothing; and over any
sequence of successful status observations, exactly one notification fires per
Closed→Open edge. -/
theorem notify_iff_closed_to_open (t : Option EmailTransporter)
    (r : Except String Unit) (now : Nat) :
    (∀ (rec : NotificationRecord) (cs : ClassStatus),
      rec.user_id ≠ none → rec.class_id ≠ none →
      (sentFlag (processNotification rec (some cs) now t r).2 = true ↔
          rec.last_status = SeatStatus.Closed ∧
            cs.seatStatus = SeatStatus.Open) ∧
        ((processNotification rec (some cs) now t r).1).last_status =
          cs.seatStatus) ∧
    (∀ (rec : NotificationRecord) (obs : List SeatStatus),
      rec.user_id ≠ none → rec.class_id ≠ none →
      (runObservations rec obs t r now).2 =
        closedOpenEdges rec.last_status obs) := by
  constructor
  · intro rec cs hu hc
    constructor
    · rw [sentFlag_processNotification_some rec cs now t r hu hc]
      simp
    · exact last_status_after rec cs now t r hu hc
  · intro rec obs hu hc
    unfold runObservations
    rw [foldl_stepObservation_count t r now obs rec 0 hu hc]
    exact Nat.zero_add _

/-- A concrete valid tracking record used by the witnesses. -/
def wRec : NotificationRecord :=
  { id := 10
    user_id := some 1
    class_id := some 2
    class_number := "12345"
    last_status := SeatStatus.Closed
    last_checked := 0
    notification_sent := none
    notification_count := 0
    is_active := true }

theorem notify_iff_closed_to_open_witness :
    sentFlag (processNotification wRec (some (mkStatus SeatStatus.Open)) 0 none
      (Except.ok ())).2 = true ∧
    (runObservations wRec
      [SeatStatus.Open, SeatStatus.Open, SeatStatus.Closed, SeatStatus.Open]
      none (Except.ok ()) 0).2 = 2 := by
  have h := notify_iff_closed_to_open none (Except.ok ()) 0
  constructor
  · exact ((h.1 wRec (mkStatus SeatStatus.Open) (by decide) (by decide)).1).mpr
      ⟨rfl, rfl⟩
  · rw [h.2 wRec
      [SeatStatus.Open, SeatStatus.Open, SeatStatus.Closed, SeatStatus.Open]
      (by decide) (by decide)]
    decide

/-- C2: for a successful lookup, `last_status` and `last_checked` are persisted
with the new values whatever the email send does (the persisted record does not
depend on the transporter or on the `sendMail` outcome, and the update happens
on every pairing); an email send failure is never propagated
(`sendNotificationEmail` always returns `ok`); and after the update, a repeat
`Open` observation on the next cycle fires no notification — the transition is
not detected twice. -/
theorem status_persisted_regardless_of_email (rec : NotificationRecord)
    (cs cs2 : ClassStatus) (now now2 : Nat) (t t' t2 : Option EmailTransporter)
    (r r' r2 : Except String Unit)
    (hu : rec.user_id ≠ none) (hc : rec.class_id ≠ none) :
    (sendNotificationEmail t rec cs r).isOk = true ∧
    (processNotification rec (some cs) now t r).1 =
      (processNotification rec (some cs) now t' r').1 ∧
    ((processNotification rec (some cs) now t r).1).last_checked = now ∧
    ((processNotification rec (some cs) now t r).1).last_status = cs.seatStatus ∧
    (cs.seatStatus = SeatStatus.Open → cs2.seatStatus = SeatStatus.Open →
      sentFlag (processNotification
        ((processNotification rec (some cs) now t r).1)
        (some cs2) now2 t2 r2).2 = false) := by
  refine ⟨sendNotificationEmail_isOk t rec cs r,
    processNotification_fst_email_free rec (some cs) now t t' r r',
    last_checked_after rec cs now t r hu hc,
    last_status_after rec cs now t r hu hc, ?_⟩
  intro hopen hopen2
  have hfields := processNotification_fst_fields rec (some cs) now t r
  have hu' : ((processNotification rec (some cs) now t r).1).user_id ≠ none := by
    rw [hfields.1]
    exact hu
  have hc' : ((processNotification rec (some cs) now t r).1).class_id ≠ none := by
    rw [hfields.2.1]
    exact hc
  rw [sentFlag_processNotification_some _ cs2 now2 t2 r2 hu' hc',
    last_status_after rec cs now t r hu hc, hopen]
  simp

theorem status_persisted_regardless_of_email_witness :
    (sendNotificationEmail (some { host := "smtp.gmail.com", port := 587 })
      wRec (mkStatus SeatStatus.Open) (Except.error "mail down")).isOk = true ∧
    ((processNotification wRec (some (mkStatus SeatStatus.Open)) 7
      (some { host := "smtp.gmail.com", port := 587 })
      (Except.error "mail down")).1).last_checked = 7 := by
  have h := status_persisted_regardless_of_email wRec (mkStatus SeatStatus.Open)
    (mkStatus SeatStatus.Open) 7 8 (some { host := "smtp.gmail.com", port := 587 })
    none none (Except.error "mail down") (Except.ok ()) (Except.ok ())
    (by decide) (by decide)
  exact ⟨h.1, h.2.2.1⟩

/-- C9: on a detected Closed→Open transition, `notification_count` is
incremented and `notification_sent` set to the current time for every email
configuration — no transporter at all (silent no-op) and a failing `sendMail`
alike, since `sendNotificationEmail` never throws; hence the persisted counter
aggregated by `getNotificationStats` counts detected transitions, not
delivered emails: the store-level `totalNotificationsSent` rises by exactly 1. -/
theorem notification_count_counts_attempts (rec : NotificationRecord)
    (cs : ClassStatus) (now : Nat) (t t2 : Option EmailTransporter)
    (r r2 : Except String Unit) (pre post : List NotificationRecord)
    (h1 : rec.last_status = SeatStatus.Closed)
    (h2 : cs.seatStatus = SeatStatus.Open)
    (hu : rec.user_id ≠ none) (hc : rec.class_id ≠ none)
    (ha : rec.is_active = true) :
    ((processNotification rec (some cs) now t r).1).notification_count =
      rec.notification_count + 1 ∧
    ((processNotification rec (some cs) now t r).1).notification_sent =
      some now ∧
    sendNotificationEmail none rec cs r2 = Except.ok false ∧
    (sendNotificationEmail t2 rec cs r2).isOk = true ∧
    (getNotificationStats
        (pre ++ (processNotification rec (some cs) now t r).1 :: post)).totalNotificationsSent =
      (getNotificationStats (pre ++ rec :: post)).totalNotificationsSent + 1 := by
  have heq := processNotification_some_eq rec cs now t r hu hc
  rw [if_pos ⟨h1, h2⟩] at heq
  have hcount : ((processNotification rec (some cs) now t r).1).notification_count =
      rec.notification_count + 1 := by
    rw [heq]
  have hsent : ((processNotification rec (some cs) now t r).1).notification_sent =
      some now := by
    rw [heq]
  have hact : ((processNotification rec (some cs) now t r).1).is_active = true := by
    rw [(processNotification_fst_fields rec (some cs) now t r).2.2]
    exact ha
  refine ⟨hcount, hsent, rfl, sendNotificationEmail_isOk t2 rec cs r2, ?_⟩
  simp only [getNotificationStats, List.filter_append, List.filter_cons, hact,
    ha, if_pos, List.map_append, List.map_cons, List.sum_append, List.sum_cons,
    hcount]
  omega

theorem notification_count_counts_attempts_witness :
    ((processNotification wRec (some (mkStatus SeatStatus.Open)) 3 none
      (Except.error "mail down")).1).notification_count =
      wRec.notification_count + 1 ∧
    (getNotificationStats
        [(processNotification wRec (some (mkStatus SeatStatus.Open)) 3 none
          (Except.error "mail down")).1]).totalNotificationsSent =
      (getNotificationStats [wRec]).totalNotificationsSent + 1 := by
  have h := notification_count_counts_attempts wRec (mkStatus SeatStatus.Open)
    3 none none (Except.error "mail down") (Except.ok ()) [] [] rfl rfl
    (by decide) (by decide) rfl
  exact ⟨h.1, h.2.2.2.2⟩

theorem mem_updateFirst {α : Type} (p : α → Bool) (f : α → α) :
    ∀ (l : List α) (x : α), x ∈ updateFirst p f l → x ∈ l ∨ ∃ y ∈ l, x = f y := by
  intro l
  induction l with
  | nil =>
    intro x hx
    simp [updateFirst] at hx
  | cons a as ih =>
    intro x hx
    unfold updateFirst at hx
    split at hx
    · rcases List.mem_cons.mp hx with heq | hx'
      · exact Or.inr ⟨a, List.mem_cons_self a as, heq⟩
      · exact Or.inl (List.mem_cons_of_mem a hx')
    · rcases List.mem_cons.mp hx with heq | hx'
      · exact Or.inl (heq ▸ List.mem_cons_self a as)
      · rcases ih x hx' with h' | ⟨y, hy, hxy⟩
        · exact Or.inl (List.mem_cons_of_mem a h')
        · exact Or.inr ⟨y, List.mem_cons_of_mem a hy, hxy⟩

theorem unique_updateFirst_deactivate (p : NotificationRecord → Bool)
    (l : List NotificationRecord) (h : uniqueActivePerPair l) :
    uniqueActivePerPair
      (updateFirst p (fun n => { n with is_active := false }) l) := by
  intro n1 h1 n2 h2 a1 a2 hup hcp
  have m1 : n1 ∈ l := by
    rcases mem_updateFirst p _ l n1 h1 with h' | ⟨y, hy, heq⟩
    · exact h'
    · rw [heq] at a1
      simp at a1
  have m2 : n2 ∈ l := by
    rcases mem_updateFirst p _ l n2 h2 with h' | ⟨y, hy, heq⟩
    · exact h'
    · rw [heq] at a2
      simp at a2
  exact h n1 m1 n2 m2 a1 a2 hup hcp

theorem unique_append_fresh (l : List NotificationRecord)
    (nr : NotificationRecord) (h : uniqueActivePerPair l)
    (hfresh : ∀ n ∈ l, n.is_active = true →
      ¬(n.user_id = nr.user_id ∧ n.class_id = nr.class_id)) :
    uniqueActivePerPair (l ++ [nr]) := by
  intro n1 h1 n2 h2 a1 a2 hup hcp
  rcases List.mem_append.mp h1 with m1 | m1
  · rcases List.mem_append.mp h2 with m2 | m2
    · exact h n1 m1 n2 m2 a1 a2 hup hcp
    · have e2 : n2 = nr := List.mem_singleton.mp m2
      subst e2
      exact absurd ⟨hup, hcp⟩ (hfresh n1 m1 a1)
  · have e1 : n1 = nr := List.mem_singleton.mp m1
    subst e1
    rcases List.mem_append.mp h2 with m2 | m2
    · exact absurd ⟨hup.symm, hcp.symm⟩ (hfresh n2 m2 a2)
    · exact (List.mem_singleton.mp m2).symm

theorem unique_map_fieldpreserving (f : NotificationRecord → NotificationRecord)
    (hf : ∀ n, (f n).user_id = n.user_id ∧ (f n).class_id = n.class_id ∧
      (f n).is_active = n.is_active)
    (l : List NotificationRecord) (h : uniqueActivePerPair l) :
    uniqueActivePerPair (l.map f) := by
  intro m1 h1 m2 h2 a1 a2 hup hcp
  rcases List.mem_map.mp h1 with ⟨n1, hn1, e1⟩
  rcases List.mem_map.mp h2 with ⟨n2, hn2, e2⟩
  subst e1
  subst e2
  rw [(hf n1).2.2] at a1
  rw [(hf n2).2.2] at a2
  rw [(hf n1).1, (hf n2).1] at hup
  rw [(hf n1).2.1, (hf n2).2.1] at hcp
  exact congrArg f (h n1 hn1 n2 hn2 a1 a2 hup hcp)

theorem initStep_preserves (now : Nat) (acc : List NotificationRecord × Nat)
    (c : ClassDoc) (h : uniqueActivePerPair acc.1) :
    uniqueActivePerPair (initStep now acc c).1 := by
  unfold initStep
  cases hcu : c.user_id with
  | none => exact h
  | some uid =>
    dsimp only
    split
    · exact h
    · next hany =>
      apply unique_append_fresh _ _ h
      intro n hn ha hpair
      apply hany
      rw [List.any_eq_true]
      refine ⟨n, hn, ?_⟩
      have h1 : n.user_id = some uid := hpair.1
      have h2 : n.class_id = some c.id := hpair.2
      simp [h1, h2]

theorem foldl_initStep_preserves (now : Nat) (classes : List ClassDoc) :
    ∀ (acc : List NotificationRecord × Nat), uniqueActivePerPair acc.1 →
      uniqueActivePerPair ((classes.foldl (initStep now) acc).1) := by
  induction classes with
  | nil =>
    intro acc h
    exact h
  | cons c cs ih =>
    intro acc h
    rw [List.foldl_cons]
    exact ih _ (initStep_preserves now acc c h)

/-- A store holding one class and one active tracking record for the pair
(user 1, class 2), used by the C6 counterexample and witnesses. -/
def cexStore : Store :=
  { classes := [{ id := 2, user_id := some 1, number := "12345" }]
    notifs := [wRec] }

/-- C6 counterexample: `handleClassAdded` does not check for an existing
tracking record — invoked for a (userId, classId) pair that already has an
active record, it creates a second active record for the same pair, violating
the invariant the claim says every operation preserves. -/
theorem unique_active_counterexample :
    uniqueActivePerPair cexStore.notifs ∧
    ¬ uniqueActivePerPair (handleClassAdded 1 2 11 0 cexStore).notifs := by
  decide

/-- C6 amended: `handleClassRemoved`, the startup backfill
(`initializeNotificationTracking`) and polling updates preserve the invariant
that at most one active tracking record exists per (userId, classId) pair;
`handleClassAdded` performs no duplicate check and preserves the invariant
only under the precondition that no active record for the pair exists yet
(e.g. when the classId is freshly created). -/
theorem tracking_ops_preserve_unique_active :
    (∀ (u c : Nat) (s : Store), uniqueActivePerPair s.notifs →
      uniqueActivePerPair (handleClassRemoved u c s).notifs) ∧
    (∀ (now nid : Nat) (s : Store), uniqueActivePerPair s.notifs →
      uniqueActivePerPair (initializeNotificationTracking now nid s).notifs) ∧
    (∀ (u c nid now : Nat) (s : Store), uniqueActivePerPair s.notifs →
      (∀ n ∈ s.notifs, n.is_active = true →
        ¬(n.user_id = some u ∧ n.class_id = some c)) →
      uniqueActivePerPair (handleClassAdded u c nid now s).notifs) ∧
    (∀ (s : Store) (nid : Nat) (lookup : Option ClassStatus) (now : Nat)
      (t : Option EmailTransporter) (r : Except String Unit),
      uniqueActivePerPair s.notifs →
      uniqueActivePerPair (applyPoll s nid lookup now t r).notifs) := by
  refine ⟨?_, ?_, ?_, ?_⟩
  · intro u c s h
    exact unique_updateFirst_deactivate _ _ h
  · intro now nid s h
    exact foldl_initStep_preserves now s.classes (s.notifs, nid) h
  · intro u c nid now s h hfresh
    unfold handleClassAdded
    cases hfind : s.classes.find? (fun cd => cd.id == c) with
    | none => exact h
    | some cd =>
      dsimp only
      apply unique_append_fresh _ _ h
      intro n hn ha hpair
      exact hfresh n hn ha ⟨hpair.1, hpair.2⟩
  · intro s nid lookup now t r h
    apply unique_map_fieldpreserving _ ?_ _ h
    intro n
    by_cases hid : (n.id == nid) = true
    · simp only [hid, if_pos]
      exact processNotification_fst_fields n lookup now t r
    · simp [hid]

theorem tracking_ops_preserve_unique_active_witness :
    uniqueActivePerPair (handleClassRemoved 1 2 cexStore).notifs ∧
    uniqueActivePerPair (initializeNotificationTracking 0 30 cexStore).notifs ∧
    uniqueActivePerPair (handleClassAdded 5 2 31 0 cexStore).notifs ∧
    uniqueActivePerPair
      (applyPoll cexStore 10 (some (mkStatus SeatStatus.Open)) 1 none
        (Except.ok ())).notifs := by
  have h := tracking_ops_preserve_unique_active
  exact ⟨h.1 1 2 cexStore (by decide), h.2.1 0 30 cexStore (by decide),
    h.2.2.1 5 2 31 0 cexStore (by decide) (by decide),
    h.2.2.2 cexStore 10 (some (mkStatus SeatStatus.Open)) 1 none
      (Except.ok ()) (by decide)⟩

theorem monitorBatches_flatten {α : Type} :
    ∀ (n : Nat) (l : List α), l.length = n → (monitorBatches l).flatten = l := by
  intro n
  induction n using Nat.strong_induction_on with
  | _ n ih =>
    intro l hlen
    by_cases h0 : l.length = 0
    · have hnil : l = [] := List.length_eq_zero.mp h0
      subst hnil
      have hb : monitorBatches ([] : List α) = [] := by
        unfold monitorBatches
        norm_num [batchSize]
      rw [hb]
      rfl
    · have hpos : 0 < l.length := Nat.pos_of_ne_zero h0
      have hcount : (l.length + (batchSize - 1)) / batchSize =
          ((l.drop batchSize).length + (batchSize - 1)) / batchSize + 1 := by
        rw [List.length_drop]
        show (l.length + 4) / 5 = (l.length - 5 + 4) / 5 + 1
        omega
      unfold monitorBatches
      rw [hcount, List.range_succ_eq_map, List.map_cons, List.map_map]
      have htail : (List.range
            (((l.drop batchSize).length + (batchSize - 1)) / batchSize)).map
            ((fun b => (l.drop (b * batchSize)).take batchSize) ∘ Nat.succ) =
          monitorBatches (l.drop batchSize) := by
        unfold monitorBatches
        apply List.map_congr_left
        intro b _
        show (l.drop (b.succ * batchSize)).take batchSize =
          ((l.drop batchSize).drop (b * batchSize)).take batchSize
        rw [List.drop_drop]
        have harith : b.succ * batchSize = batchSize + b * batchSize := by
          rw [Nat.succ_mul]
          exact Nat.add_comm _ _
        rw [harith]
      rw [htail]
      have hflat : ((fun b => (l.drop (b * batchSize)).take batchSize) 0 ::
            monitorBatches (l.drop batchSize)).flatten =
          (l.take batchSize) ++ (monitorBatches (l.drop batchSize)).flatten := by
        simp
      rw [hflat]
      have hlt : l.length - batchSize < n := by
        show l.length - 5 < n
        omega
      rw [ih (l.length - batchSize) hlt (l.drop batchSize)
        (List.length_drop batchSize l)]
      exact List.take_append_drop batchSize l

theorem runBatches_eq_flatMap {α : Type} (bs : List (List α)) :
    runBatches bs = bs.flatMap (fun b =>
      [CycleAction.processBatch b, CycleAction.interBatchDelay 1000]) := by
  induction bs with
  | nil => rfl
  | cons b rest ih =>
    rw [List.flatMap_cons]
    show CycleAction.processBatch b :: CycleAction.interBatchDelay 1000 ::
      runBatches rest = _
    rw [ih]
    rfl

/-- C7: a cycle over N active tracking records runs exactly
⌈N / 5⌉ = (N + 4) / 5 sequential batches, each of size at most 5 and jointly
covering every record exactly once; for N = 12 the batch sizes are 5, 5, 2;
the batch outcomes are settled jointly with every entry of a batch yielding a
settled result (one rejection never aborts the rest); and the cycle trace
inserts one fixed 1000 ms delay after each batch. -/
theorem batched_cycle_structure (l : List NotificationRecord)
    (outcomes : List (Except String (Option ProcessOutcome))) :
    (monitorBatches l).length = (l.length + (batchSize - 1)) / batchSize ∧
    (∀ b ∈ monitorBatches l, b.length ≤ batchSize) ∧
    (monitorBatches l).flatten = l ∧
    (l.length = 12 → (monitorBatches l).map List.length = [5, 5, 2]) ∧
    (allSettled outcomes).length = outcomes.length ∧
    runBatches (monitorBatches l) = (monitorBatches l).flatMap (fun b =>
      [CycleAction.processBatch b, CycleAction.interBatchDelay 1000]) := by
  refine ⟨?_, ?_, monitorBatches_flatten l.length l rfl, ?_, ?_,
    runBatches_eq_flatMap (monitorBatches l)⟩
  · simp [monitorBatches]
  · intro b hb
    rcases List.mem_map.mp hb with ⟨i, _, hbi⟩
    rw [← hbi]
    rw [List.length_take]
    exact min_le_left _ _
  · intro h12
    have h3 : (l.length + (batchSize - 1)) / batchSize = 3 := by
      rw [h12]
      decide
    unfold monitorBatches
    rw [h3]
    have hr : List.range 3 = [0, 1, 2] := by decide
    rw [hr]
    simp [List.length_take, List.length_drop, h12, batchSize]
  · unfold allSettled
    rw [List.length_map]

theorem batched_cycle_structure_witness :
    (monitorBatches (List.replicate 12 wRec)).map List.length = [5, 5, 2] := by
  have h := batched_cycle_structure (List.replicate 12 wRec) []
  exact h.2.2.2.1 (by decide)

/-- The empty store, used by the C10 witness. -/
def emptyStore : Store := { classes := [], notifs := [] }

/-- C10: `handleClassAdded(userId, classId)` with no class document of that
id in the store creates no tracking record and returns normally, leaving the
store entirely unchanged (`Class.findById` yields nothing and the function
returns before any `Notification.create`). -/
theorem handleClassAdded_no_class_noop (userId classId nid now : Nat)
    (s : Store) (h : ∀ c ∈ s.classes, c.id ≠ classId) :
    handleClassAdded userId classId nid now s = s := by
  have hnone : s.classes.find? (fun c => c.id == classId) = none := by
    rw [List.find?_eq_none]
    intro c hc
    simp [h c hc]
  unfold handleClassAdded
  rw [hnone]

theorem handleClassAdded_no_class_noop_witness :
    handleClassAdded 1 2 3 0 emptyStore = emptyStore :=
  handleClassAdded_no_class_noop 1 2 3 0 emptyStore (by
    intro c hc
    cases hc)

end ASUClassTracker
